import Mathlib

/-
Shallow embedding of the Wavetable_Site frontend effects code.

Numbers are modelled as rationals (`ℚ`): the JavaScript code computes with
IEEE doubles, but every claim below is about exact algebraic structure
(branching, clamping, caching, sign handling), not rounding.

Sources embedded here:
- `src/frontend/src/components/WavetableEditor.tsx` (`boundValue`,
  `previewFormantEffect`, `applyChaosFolder`'s parameter validation and
  response post-processing);
- `src/frontend/src/config.ts`, which concatenates two revisions of
  `EffectManager.ts` (the second revision's `applyEffects` and
  `toggleBypass` are embedded with a `V2` suffix);
- `src/frontend/src/components/ErrorBoundary.tsx` (`validateParameter`).
-/

namespace WavetableSite

/-- `Math.sign`: 1 for positive, -1 for negative, 0 for zero. -/
def sign (y : ℚ) : ℚ :=
  if y > 0 then 1 else if y < 0 then -1 else 0

/-- `boundValue` (WavetableEditor.tsx lines 9-11):
`Math.max(-1, Math.min(1, value))`. -/
def boundValue (value : ℚ) : ℚ :=
  max (-1) (min 1 value)

/-- One sample of `previewFormantEffect`'s mapper (WavetableEditor.tsx
lines 232-243, identically in `src/unnamed/part_007` lines 117-128):
`sign = Math.sign(y); abs = Math.abs(y);`
`strength > 0` branch returns `sign * (abs + strength * abs * (1 - abs))`,
else branch returns `sign * (abs + strength * abs * abs)`. -/
def shapeSample (y strength : ℚ) : ℚ :=
  let sgn := sign y
  let a := |y|
  if strength > 0 then sgn * (a + strength * a * (1 - a))
  else sgn * (a + strength * a * a)

/-- `previewFormantEffect` (WavetableEditor.tsx lines 228-244): returns the
frame unchanged when empty, else maps `shapeSample` over it. -/
def previewFormantEffect (frame : List ℚ) (strength : ℚ) : List ℚ :=
  if frame.isEmpty then frame
  else frame.map (fun y => shapeSample y strength)

/-- Chaos-fold response post-processing (WavetableEditor.tsx lines 468-470):
`data.frames.map(frame => frame.map(v => boundValue(v)))`. -/
def chaosFoldPostProcess (frames : List (List ℚ)) : List (List ℚ) :=
  frames.map (fun frame => frame.map (fun v => boundValue v))

/-- A JavaScript number is either an actual number or `NaN`. -/
inductive JSNum where
  | num (q : ℚ)
  | nan
deriving DecidableEq, Repr

/-- `applyChaosFolder`'s parameter preparation (WavetableEditor.tsx lines
440-452): each of sigma, rho, beta, dt is passed through `Number(...)` and
rejected if `isNaN`; numeric values are forwarded to the fold request
UNCHANGED — there is no clamping on this path. -/
def buildChaosFoldParams (sigma rho beta dt : JSNum) :
    Except String (ℚ × ℚ × ℚ × ℚ) :=
  match sigma with
  | JSNum.nan => Except.error "Invalid sigma parameter"
  | JSNum.num s =>
    match rho with
    | JSNum.nan => Except.error "Invalid rho parameter"
    | JSNum.num r =>
      match beta with
      | JSNum.nan => Except.error "Invalid beta parameter"
      | JSNum.num b =>
        match dt with
        | JSNum.nan => Except.error "Invalid dt parameter"
        | JSNum.num d => Except.ok (s, r, b, d)

/-- The magnitude computed by `shapeSample` before the sign factor is
re-applied. -/
def shapeMag (a strength : ℚ) : ℚ :=
  if strength > 0 then a + strength * a * (1 - a)
  else a + strength * a * a

/-- `sign y * |y| = y` over the rationals. -/
theorem sign_mul_abs (y : ℚ) : sign y * |y| = y := by
  rcases lt_trichotomy y 0 with h | h | h
  · simp [sign, abs_of_neg h, not_lt.mpr h.le, h]
  · simp [h, sign]
  · simp [sign, abs_of_pos h, h]

/-- `shapeSample` factors as sign times magnitude. -/
theorem shapeSample_eq_sign_mul_mag (y strength : ℚ) :
    shapeSample y strength = sign y * shapeMag |y| strength := by
  rw [shapeSample, shapeMag]
  split <;> rfl

/-- The magnitude is strictly positive for `0 < a ≤ 1`, `-1 < s ≤ 1`. -/
theorem shapeMag_pos (a s : ℚ) (ha0 : 0 < a) (ha1 : a ≤ 1)
    (hl : -1 < s) (hr : s ≤ 1) : 0 < shapeMag a s := by
  rw [shapeMag]
  split
  · nlinarith [mul_nonneg (mul_nonneg (by linarith : (0:ℚ) ≤ s) ha0.le)
      (by linarith : (0:ℚ) ≤ 1 - a)]
  · nlinarith [mul_lt_mul_of_pos_right hl (mul_pos ha0 ha0),
      mul_le_of_le_one_right ha0.le ha1]

/-- The magnitude stays in `[0,1]` for `0 ≤ a ≤ 1`, `-1 ≤ s ≤ 1`. -/
theorem shapeMag_bounds (a s : ℚ) (ha0 : 0 ≤ a) (ha1 : a ≤ 1)
    (hl : -1 ≤ s) (hr : s ≤ 1) : 0 ≤ shapeMag a s ∧ shapeMag a s ≤ 1 := by
  rw [shapeMag]
  constructor
  · split
    · nlinarith [mul_nonneg (mul_nonneg (by linarith : (0:ℚ) ≤ s) ha0)
        (by linarith : (0:ℚ) ≤ 1 - a)]
    · nlinarith [mul_le_mul_of_nonneg_right hl (mul_nonneg ha0 ha0),
        mul_le_of_le_one_right ha0 ha1]
  · split
    · nlinarith [sq_nonneg (1 - a),
        mul_le_mul_of_nonneg_right hr (mul_nonneg ha0 (by linarith : (0:ℚ) ≤ 1 - a))]
    · nlinarith [mul_le_mul_of_nonneg_right hr (mul_nonneg ha0 ha0),
        mul_nonneg (mul_nonneg (by linarith : (0:ℚ) ≤ s + 1) ha0) ha0]

/-- C4: for every sample `y` and every strength in `[-1,1]`, the shaper
computes `sign(y) * (|y| + strength*|y|*(1-|y|))` when `strength ≥ 0` and
`sign(y) * (|y| + strength*|y|^2)` when `strength < 0`.  (The code branches
on `strength > 0`, but at `strength = 0` both formulas coincide.) -/
theorem shaper_formula (y strength : ℚ) (hl : -1 ≤ strength) (hr : strength ≤ 1) :
    (0 ≤ strength →
      shapeSample y strength = sign y * (|y| + strength * |y| * (1 - |y|))) ∧
    (strength < 0 →
      shapeSample y strength = sign y * (|y| + strength * |y| ^ 2)) := by
  constructor
  · intro h0
    rcases lt_or_eq_of_le h0 with hpos | hzero
    · rw [shapeSample_eq_sign_mul_mag, shapeMag, if_pos hpos]
    · subst hzero
      rw [shapeSample_eq_sign_mul_mag, shapeMag,
        if_neg (by norm_num : ¬ (0:ℚ) > 0)]
      ring
  · intro hneg
    rw [shapeSample_eq_sign_mul_mag, shapeMag, if_neg (by linarith : ¬ strength > 0)]
    ring

/-- Witness for C4 at `y = 1/2`, `strength = 0`. -/
theorem shaper_formula_witness :
    (-1 ≤ (0 : ℚ)) ∧ ((0 : ℚ) ≤ 1) ∧
    ((0 ≤ (0 : ℚ) →
        shapeSample (1/2) 0 = sign (1/2) * (|(1/2 : ℚ)| + 0 * |(1/2 : ℚ)| * (1 - |(1/2 : ℚ)|))) ∧
      ((0 : ℚ) < 0 →
        shapeSample (1/2) 0 = sign (1/2) * (|(1/2 : ℚ)| + 0 * |(1/2 : ℚ)| ^ 2))) :=
  ⟨by norm_num, by norm_num, shaper_formula (1/2) 0 (by norm_num) (by norm_num)⟩

/-- C5 counterexample: at `y = 1, strength = -1` the shaper outputs `0`
(sign `0`, not `1`); at `y = 3, strength = 1` it outputs `-3` (sign `-1`,
not `1`).  Both inputs satisfy the claim's hypotheses (`y ≠ 0`,
`strength ∈ [-1,1]`), so sign preservation as claimed fails. -/
theorem shaper_sign_cex :
    shapeSample 1 (-1) = 0 ∧ sign (shapeSample 1 (-1)) ≠ sign 1 ∧
    (1 : ℚ) ≠ 0 ∧ (-1 : ℚ) ≤ -1 ∧ (-1 : ℚ) ≤ 1 ∧
    shapeSample 3 1 = -3 ∧ sign (shapeSample 3 1) ≠ sign 3 ∧ (3 : ℚ) ≠ 0 := by
  have h1 : shapeSample 1 (-1) = 0 := by norm_num [shapeSample, sign]
  have h2 : shapeSample 3 1 = -3 := by norm_num [shapeSample, sign]
  refine ⟨h1, ?_, by norm_num, by norm_num, by norm_num, h2, ?_, by norm_num⟩
  · rw [h1]
    norm_num [sign]
  · rw [h2]
    norm_num [sign]

/-- C5 amended: the shaper preserves sign for `y ≠ 0` provided `|y| ≤ 1`
and `strength ∈ (-1, 1]` (the claim's closed ranges fail at
`|y| = 1, strength = -1`, where the output is `0`, and for `|y| > 1`). -/
theorem shaper_sign_preserved (y strength : ℚ) (hy : y ≠ 0) (hy1 : |y| ≤ 1)
    (hl : -1 < strength) (hr : strength ≤ 1) :
    sign (shapeSample y strength) = sign y := by
  have hmag : 0 < shapeMag |y| strength :=
    shapeMag_pos _ _ (abs_pos.mpr hy) hy1 hl hr
  rw [shapeSample_eq_sign_mul_mag]
  rcases lt_trichotomy y 0 with h | h | h
  · have hs : sign y = -1 := by simp [sign, not_lt.mpr h.le, h]
    rw [hs]
    rw [show (-1 : ℚ) * shapeMag |y| strength = -(shapeMag |y| strength) by ring]
    rw [sign]
    rw [if_neg (by linarith), if_pos (by linarith)]
  · exact absurd h hy
  · have hs : sign y = 1 := by simp [sign, h]
    rw [hs, one_mul, sign, if_pos hmag]

/-- Witness for the amended C5 at `y = 1/2`, `strength = 1`. -/
theorem shaper_sign_preserved_witness :
    ((1/2 : ℚ) ≠ 0) ∧ (|(1/2 : ℚ)| ≤ 1) ∧ ((-1 : ℚ) < 1) ∧ ((1 : ℚ) ≤ 1) ∧
    sign (shapeSample (1/2) 1) = sign (1/2) :=
  ⟨by norm_num, by rw [abs_le]; constructor <;> norm_num, by norm_num, by norm_num,
    shaper_sign_preserved (1/2) 1 (by norm_num)
      (by rw [abs_le]; constructor <;> norm_num) (by norm_num) (by norm_num)⟩

/-- C6 counterexample: the shaper does not clamp.  `2` is an output sample
of `previewFormantEffect [2] 0` and exceeds `1`. -/
theorem effect_bounds_cex :
    previewFormantEffect [2] 0 = [2] ∧ ¬ ((2 : ℚ) ≤ 1) := by
  constructor
  · norm_num [previewFormantEffect, shapeSample, sign]
  · norm_num

/-- C6 amended: the chaos-fold post-processing clamps every output sample
into `[-1,1]` for all inputs; the harmonic shaper's outputs lie in `[-1,1]`
whenever its input samples do and `strength ∈ [-1,1]` — but the shaper does
not clamp, so out-of-range inputs can produce out-of-range outputs. -/
theorem effect_bounds (frames : List (List ℚ)) (frame : List ℚ) (strength : ℚ)
    (hl : -1 ≤ strength) (hr : strength ≤ 1)
    (hin : ∀ x ∈ frame, -1 ≤ x ∧ x ≤ 1) :
    (∀ f ∈ chaosFoldPostProcess frames, ∀ v ∈ f, -1 ≤ v ∧ v ≤ 1) ∧
    (∀ y ∈ previewFormantEffect frame strength, -1 ≤ y ∧ y ≤ 1) := by
  constructor
  · intro f hf v hv
    simp only [chaosFoldPostProcess, List.mem_map] at hf
    obtain ⟨f0, _, rfl⟩ := hf
    simp only [List.mem_map] at hv
    obtain ⟨v0, _, rfl⟩ := hv
    refine ⟨le_max_left _ _, max_le (by norm_num) (min_le_left _ _)⟩
  · intro y hy
    by_cases hemp : frame.isEmpty
    · rw [previewFormantEffect, if_pos hemp] at hy
      exact hin y hy
    · rw [previewFormantEffect, if_neg hemp] at hy
      simp only [List.mem_map] at hy
      obtain ⟨x, hx, rfl⟩ := hy
      obtain ⟨hx1, hx2⟩ := hin x hx
      have ha1 : |x| ≤ 1 := abs_le.mpr ⟨hx1, hx2⟩
      obtain ⟨hm0, hm1⟩ := shapeMag_bounds |x| strength (abs_nonneg x) ha1 hl hr
      rw [shapeSample_eq_sign_mul_mag]
      rcases lt_trichotomy x 0 with h | h | h
      · have hs : sign x = -1 := by simp [sign, not_lt.mpr h.le, h]
        rw [hs]
        constructor <;> nlinarith
      · subst h
        have hs : sign (0 : ℚ) = 0 := by norm_num [sign]
        rw [hs, zero_mul]
        norm_num
      · have hs : sign x = 1 := by simp [sign, h]
        rw [hs, one_mul]
        exact ⟨by linarith, hm1⟩

/-- Witness for the amended C6 at `frames = [[5]]`, `frame = [1/2]`,
`strength = 1`. -/
theorem effect_bounds_witness :
    (-1 ≤ (1 : ℚ)) ∧ ((1 : ℚ) ≤ 1) ∧ (∀ x ∈ [(1/2 : ℚ)], -1 ≤ x ∧ x ≤ 1) ∧
    ((∀ f ∈ chaosFoldPostProcess [[5]], ∀ v ∈ f, -1 ≤ v ∧ v ≤ 1) ∧
      (∀ y ∈ previewFormantEffect [1/2] 1, -1 ≤ y ∧ y ≤ 1)) :=
  ⟨by norm_num, by norm_num, by norm_num,
    effect_bounds [[5]] [1/2] 1 (by norm_num) (by norm_num) (by norm_num)⟩

/-- C7: applying the shaper with `strength = 0` is the identity on every
frame (the code takes the `else` branch, which reduces to
`sign(y) * |y| = y`). -/
theorem shaper_strength_zero_id (frame : List ℚ) :
    previewFormantEffect frame 0 = frame := by
  rw [previewFormantEffect]
  split
  · rfl
  · have h : ∀ y : ℚ, shapeSample y 0 = y := by
      intro y
      rw [shapeSample_eq_sign_mul_mag, shapeMag,
        if_neg (by norm_num : ¬ (0:ℚ) > 0)]
      rw [show |y| + 0 * |y| * |y| = |y| by ring]
      exact sign_mul_abs y
    calc frame.map (fun y => shapeSample y 0) = frame.map id :=
          List.map_congr_left (fun y _ => h y)
      _ = frame := List.map_id frame

/-- `0.5` as a normal-form rational, so that concrete runs of the embedded
code reduce inside the kernel. -/
def ratHalf : ℚ := ⟨1, 2, by decide, by decide⟩

/-- `0.25` as a normal-form rational. -/
def ratQuarter : ℚ := ⟨1, 4, by decide, by decide⟩

/-- `0.01` as a normal-form rational. -/
def ratHundredth : ℚ := ⟨1, 100, by decide, by decide⟩

/-- `0.001` as a normal-form rational. -/
def ratThousandth : ℚ := ⟨1, 1000, by decide, by decide⟩

/-- `0.1` as a normal-form rational. -/
def ratTenth : ℚ := ⟨1, 10, by decide, by decide⟩

theorem ratHalf_eq : ratHalf = 1/2 := by
  rw [ratHalf, Rat.mk'_eq_divInt, Rat.divInt_eq_div]
  norm_num

theorem ratQuarter_eq : ratQuarter = 1/4 := by
  rw [ratQuarter, Rat.mk'_eq_divInt, Rat.divInt_eq_div]
  norm_num

theorem ratHundredth_eq : ratHundredth = 1/100 := by
  rw [ratHundredth, Rat.mk'_eq_divInt, Rat.divInt_eq_div]
  norm_num

theorem ratThousandth_eq : ratThousandth = 1/1000 := by
  rw [ratThousandth, Rat.mk'_eq_divInt, Rat.divInt_eq_div]
  norm_num

theorem ratTenth_eq : ratTenth = 1/10 := by
  rw [ratTenth, Rat.mk'_eq_divInt, Rat.divInt_eq_div]
  norm_num

/-- `EffectParameter` (config.ts lines 20-39). -/
structure EffectParameter where
  id : String
  name : String
  type : String
  value : ℚ
  min : ℚ
  max : ℚ
  step : ℚ
  default : ℚ
deriving Repr, DecidableEq

/-- `Effect` (config.ts lines 44-53). -/
structure Effect where
  id : String
  name : String
  parameters : List EffectParameter
  bypassed : Bool
deriving Repr, DecidableEq

/-- An entry of `computeCache` (config.ts line 72):
`{ params: Record<string, number>, result: number[] }`.  Parameter records
are modelled as association lists in insertion order, which is the order
`JSON.stringify` serializes a JavaScript object's keys in. -/
structure CacheEntry where
  params : List (String × ℚ)
  result : List ℚ
deriving Repr, DecidableEq

/-- The `EffectManager` instance state (config.ts lines 66-74): the effect
registry, the set of bypassed effect ids, and the compute cache, whose keys
are strings.  The debounce timers and DOM events are omitted: they carry no
effect-manager state that any modelled operation reads. -/
structure EffectManagerState where
  effects : List Effect
  bypassedEffects : List String
  computeCache : List (String × CacheEntry)
deriving Repr, DecidableEq

/-- Decimal digits of a natural number (fuel-driven, kernel-reducible). -/
def natReprAux : Nat → Nat → List Char → List Char
  | 0, _, acc => acc
  | fuel+1, n, acc =>
    let acc2 := Char.ofNat (48 + n % 10) :: acc
    if n < 10 then acc2 else natReprAux fuel (n / 10) acc2

/-- Decimal rendering of a natural number. -/
def natRepr (n : Nat) : String :=
  String.mk (natReprAux (n + 1) n [])

/-- Decimal rendering of an integer. -/
def intRepr : Int → String
  | Int.ofNat n => natRepr n
  | Int.negSucc n => "-" ++ natRepr (n + 1)

/-- Rendering of a number inside `JSON.stringify`, kept injective on ℚ. -/
def ratRepr (q : ℚ) : String :=
  intRepr q.num ++ "/" ++ natRepr q.den

/-- `JSON.stringify` of a parameter record: keys in insertion order. -/
def jsonStringifyParams (ps : List (String × ℚ)) : String :=
  "\x7b" ++ String.intercalate ","
    (ps.map (fun p => "\"" ++ p.1 ++ "\":" ++ ratRepr p.2)) ++ "\x7d"

/-- `getCacheKey` (config.ts lines 294-296 and 679-681):
`` `${effectId}:${JSON.stringify(parameters)}` `` — the key holds only the
effect id and the serialized parameter values; nothing about the input
waveform enters it. -/
def getCacheKey (effectId : String) (parameters : List (String × ℚ)) : String :=
  effectId ++ ":" ++ jsonStringifyParams parameters

/-- `Map.get` on the compute cache. -/
def mapGet (cache : List (String × CacheEntry)) (k : String) : Option CacheEntry :=
  (cache.find? (fun e => decide (e.1 = k))).map (fun e => e.2)

/-- `Map.set` on the compute cache: replace the entry at an existing key,
else append. -/
def mapSet (cache : List (String × CacheEntry)) (k : String) (v : CacheEntry) :
    List (String × CacheEntry) :=
  if cache.any (fun e => decide (e.1 = k)) then
    cache.map (fun e => if e.1 = k then (k, v) else e)
  else cache ++ [(k, v)]

/-- `Map.delete` on the compute cache. -/
def mapDelete (cache : List (String × CacheEntry)) (k : String) :
    List (String × CacheEntry) :=
  cache.filter (fun e => decide (e.1 ≠ k))

/-- `clearComputeCache` (config.ts lines 284-286):
`this.computeCache.delete(effectId)` — note the key used here is the BARE
effect id, while entries are stored under `getCacheKey effectId params`. -/
def clearComputeCache (cache : List (String × CacheEntry)) (effectId : String) :
    List (String × CacheEntry) :=
  mapDelete cache effectId

/-- `Set.add` on the bypass set. -/
def setAdd (l : List String) (x : String) : List String :=
  if x ∈ l then l else l ++ [x]

/-- `Set.delete` on the bypass set. -/
def setDelete (l : List String) (x : String) : List String :=
  l.filter (fun y => decide (y ≠ x))

/-- `isEffectBypassed` (config.ts lines 276-278):
`this.bypassedEffects.has(effectId)`. -/
def isEffectBypassed (s : EffectManagerState) (effectId : String) : Bool :=
  decide (effectId ∈ s.bypassedEffects)

/-- Update the first effect whose id matches, like mutating the object
returned by `this.effects.find(...)`. -/
def updateFirstEffect : List Effect → String → (Effect → Effect) → List Effect
  | [], _, _ => []
  | e :: rest, effectId, f =>
    if e.id = effectId then f e :: rest
    else e :: updateFirstEffect rest effectId f

/-- `Math.max(param.min, Math.min(param.max, value))`. -/
def clampValue (pmin pmax v : ℚ) : ℚ :=
  max pmin (min pmax v)

/-- Update the first parameter whose id matches, writing the clamped value. -/
def updateFirstParam : List EffectParameter → String → ℚ → List EffectParameter
  | [], _, _ => []
  | p :: rest, paramId, v =>
    if p.id = paramId then
      { p with value := clampValue p.min p.max v } :: rest
    else p :: updateFirstParam rest paramId v

/-- `updateEffectParameter` (config.ts lines 194-207): find the effect, find
the parameter, clamp the written value to `[min, max]`, then call
`clearComputeCache(effectId)`.  If effect or parameter is missing, nothing
happens.  (The debounce timer only schedules a UI notification.) -/
def updateEffectParameter (s : EffectManagerState) (effectId paramId : String)
    (v : ℚ) : EffectManagerState :=
  match s.effects.find? (fun e => decide (e.id = effectId)) with
  | none => s
  | some e =>
    match e.parameters.find? (fun p => decide (p.id = paramId)) with
    | none => s
    | some _ =>
      { s with
        effects := updateFirstEffect s.effects effectId
          (fun e2 => { e2 with parameters := updateFirstParam e2.parameters paramId v }),
        computeCache := clearComputeCache s.computeCache effectId }

/-- `toggleBypass`, first revision (config.ts lines 241-269): returns
unchanged if the effect is not registered; else flips membership of the id
in the bypass set and clears the (mis-keyed) cache entry. -/
def toggleBypass (s : EffectManagerState) (effectId : String) : EffectManagerState :=
  match s.effects.find? (fun e => decide (e.id = effectId)) with
  | none => s
  | some _ =>
    let newBypassState := !(isEffectBypassed s effectId)
    { s with
      bypassedEffects :=
        if newBypassState then setAdd s.bypassedEffects effectId
        else setDelete s.bypassedEffects effectId,
      computeCache := clearComputeCache s.computeCache effectId }

/-- `toggleBypass`, second revision (config.ts lines 640-654): flips set
membership unconditionally, then mirrors the new state into the effect's
`bypassed` field when the effect is registered. -/
def toggleBypassV2 (s : EffectManagerState) (effectId : String) : EffectManagerState :=
  let bl :=
    if effectId ∈ s.bypassedEffects then setDelete s.bypassedEffects effectId
    else setAdd s.bypassedEffects effectId
  { s with
    bypassedEffects := bl,
    effects := updateFirstEffect s.effects effectId
      (fun e => { e with bypassed := decide (effectId ∈ bl) }) }

/-- The parameter record built inside `applyEffects`:
`effect.parameters.reduce((acc, param) => { acc[param.id] = param.value; ... })`. -/
def effectParamsRecord (e : Effect) : List (String × ℚ) :=
  e.parameters.map (fun p => (p.id, p.value))

/-- The backend stage computation reached through
`fetch(.../api/effects/apply)`: from effect id, parameters and input
waveform to either an error or the processed waveform.  (The backend itself
is not part of this repository; the claims below hold for every backend.) -/
def Backend : Type :=
  String → List (String × ℚ) → List ℚ → Except String (List ℚ)

/-- The cache-hit test of the first `applyEffects` revision (config.ts lines
323-326): the stored entry's params must re-serialize identically and the
cached result's LENGTH must equal the current input's length — the input's
contents are never compared. -/
def cacheHit (cached : CacheEntry) (parameters : List (String × ℚ))
    (processed : List ℚ) : Bool :=
  decide (jsonStringifyParams cached.params = jsonStringifyParams parameters) &&
    decide (cached.result.length = processed.length)

/-- Loop body of the first `applyEffects` revision (config.ts lines 303-406),
instrumented with a backend-invocation counter.  On a stage error the code
clears the (mis-keyed) cache entry and rethrows. -/
def applyEffectsAux (backend : Backend) (bypassed : List String) :
    List Effect → List ℚ → List (String × CacheEntry) → Nat →
    Except String (List ℚ) × List (String × CacheEntry) × Nat
  | [], processed, cache, n => (Except.ok processed, cache, n)
  | e :: rest, processed, cache, n =>
    if e.id ∈ bypassed then
      applyEffectsAux backend bypassed rest processed cache n
    else
      let parameters := effectParamsRecord e
      let cacheKey := getCacheKey e.id parameters
      match mapGet cache cacheKey with
      | some c =>
        if cacheHit c parameters processed then
          applyEffectsAux backend bypassed rest c.result cache n
        else
          match backend e.id parameters processed with
          | Except.error msg => (Except.error msg, mapDelete cache e.id, n + 1)
          | Except.ok wf =>
            applyEffectsAux backend bypassed rest wf
              (mapSet cache cacheKey ⟨parameters, wf⟩) (n + 1)
      | none =>
        match backend e.id parameters processed with
        | Except.error msg => (Except.error msg, mapDelete cache e.id, n + 1)
        | Except.ok wf =>
          applyEffectsAux backend bypassed rest wf
            (mapSet cache cacheKey ⟨parameters, wf⟩) (n + 1)

/-- `applyEffects`, first revision (config.ts lines 303-406): rejects empty
input, then folds the enabled effects over the waveform.  Returns the
result (or the aborting stage error), the final cache, and how many times
the backend stage computation ran. -/
def applyEffects (s : EffectManagerState) (backend : Backend)
    (waveformData : List ℚ) :
    Except String (List ℚ) × List (String × CacheEntry) × Nat :=
  if waveformData.isEmpty then
    (Except.error "Invalid waveform data", s.computeCache, 0)
  else
    applyEffectsAux backend s.bypassedEffects s.effects waveformData s.computeCache 0

/-- Loop body of the second `applyEffects` revision (config.ts lines
688-736): no cache lookup; on a stage error the `catch` block logs and
`continue`s with the UNPROCESSED data. -/
def applyEffectsV2Aux (backend : Backend) (bypassed : List String) :
    List Effect → List ℚ → List (String × CacheEntry) → Nat →
    List ℚ × List (String × CacheEntry) × Nat
  | [], processed, cache, n => (processed, cache, n)
  | e :: rest, processed, cache, n =>
    if e.id ∈ bypassed then
      applyEffectsV2Aux backend bypassed rest processed cache n
    else
      let parameters := effectParamsRecord e
      match backend e.id parameters processed with
      | Except.error _ =>
        applyEffectsV2Aux backend bypassed rest processed cache (n + 1)
      | Except.ok wf =>
        applyEffectsV2Aux backend bypassed rest wf
          (mapSet cache (getCacheKey e.id parameters) ⟨parameters, wf⟩) (n + 1)

/-- `applyEffects`, second revision (config.ts lines 688-736): never
throws — stage errors are swallowed. -/
def applyEffectsV2 (s : EffectManagerState) (backend : Backend)
    (waveformData : List ℚ) :
    List ℚ × List (String × CacheEntry) × Nat :=
  applyEffectsV2Aux backend s.bypassedEffects s.effects waveformData s.computeCache 0

/-- The `chaosFold` effect as registered by the constructor (config.ts
lines 78-174). -/
def chaosFoldEffect : Effect where
  id := "chaosFold"
  name := "Chaos Fold"
  parameters := [
    { id := "beta", name := "Beta", type := "range",
      value := ratHalf, min := 0, max := 2, step := ratHundredth, default := ratHalf },
    { id := "timeStep", name := "Time Step", type := "range",
      value := ratHundredth, min := ratThousandth, max := ratTenth,
      step := ratThousandth, default := ratHundredth },
    { id := "mix", name := "Mix", type := "range",
      value := 1, min := 0, max := 1, step := ratHundredth, default := 1 },
    { id := "sigma", name := "Sigma", type := "range",
      value := 10, min := 0, max := 20, step := ratTenth, default := 10 },
    { id := "rho", name := "Rho", type := "range",
      value := 28, min := 0, max := 50, step := ratTenth, default := 28 },
    { id := "foldSymmetry", name := "Fold Symmetry", type := "range",
      value := ratHalf, min := 0, max := 1, step := ratHundredth, default := ratHalf },
    { id := "complexity", name := "Wave Complexity", type := "range",
      value := ratHalf, min := 0, max := 1, step := ratHundredth, default := ratHalf },
    { id := "lfoAmount", name := "LFO Amount", type := "range",
      value := 0, min := 0, max := 1, step := ratHundredth, default := 0 }]
  bypassed := false

/-- The manager state right after the constructor runs. -/
def defaultManager : EffectManagerState where
  effects := [chaosFoldEffect]
  bypassedEffects := []
  computeCache := []

/-- Observer: a parameter's stored value. -/
def getParamValue (s : EffectManagerState) (effectId paramId : String) : Option ℚ :=
  (s.effects.find? (fun e => decide (e.id = effectId))).bind
    (fun e => (e.parameters.find? (fun p => decide (p.id = paramId))).map
      (fun p => p.value))

/-- Observer: a parameter's registered `[min, max]` range. -/
def getParamRange (s : EffectManagerState) (effectId paramId : String) :
    Option (ℚ × ℚ) :=
  (s.effects.find? (fun e => decide (e.id = effectId))).bind
    (fun e => (e.parameters.find? (fun p => decide (p.id = paramId))).map
      (fun p => (p.min, p.max)))

/-- Observer: all registered `(paramId, min, max)` triples of an effect. -/
def registeredRanges (s : EffectManagerState) (effectId : String) :
    List (String × ℚ × ℚ) :=
  match s.effects.find? (fun e => decide (e.id = effectId)) with
  | none => []
  | some e => e.parameters.map (fun p => (p.id, p.min, p.max))

/-- A concrete backend used to exercise the cache: negate every sample. -/
def backendNeg : Backend :=
  fun _ _ wf => Except.ok (wf.map (fun x => -x))

/-- A concrete backend whose stage always fails. -/
def backendFail : Backend :=
  fun _ _ _ => Except.error "stage failed"

/-- The state after `applyEffects` has run once on `[0.5]` and cached the
stage result `[-0.5]`. -/
def c1FirstRun : Except String (List ℚ) × List (String × CacheEntry) × Nat :=
  applyEffects defaultManager backendNeg [ratHalf]

/-- The manager carrying the cache produced by `c1FirstRun`. -/
def c1SecondState : EffectManagerState :=
  { defaultManager with computeCache := c1FirstRun.2.1 }

/-- The cache entry stored by `c1FirstRun`. -/
def c1Entry : CacheEntry :=
  ⟨effectParamsRecord chaosFoldEffect, [-ratHalf]⟩

/-- The state after `applyEffects` has run once on `[1]` (caching `[-1]`). -/
def c2AfterFirstRun : EffectManagerState :=
  { defaultManager with computeCache := (applyEffects defaultManager backendNeg [1]).2.1 }

/-- `c2AfterFirstRun` after writing `mix := 0.5`. -/
def c2AfterWrite1 : EffectManagerState :=
  updateEffectParameter c2AfterFirstRun "chaosFold" "mix" ratHalf

/-- `c2AfterWrite1` after writing `mix := 1` (back to the original value). -/
def c2AfterWrite2 : EffectManagerState :=
  updateEffectParameter c2AfterWrite1 "chaosFold" "mix" 1

/-- `find?` after updating the first matching effect: the found effect is
the updated one (for id-preserving updates). -/
theorem find?_updateFirstEffect (l : List Effect) (effectId : String)
    (f : Effect → Effect) (hf : ∀ e, (f e).id = e.id) :
    (updateFirstEffect l effectId f).find? (fun e => decide (e.id = effectId))
      = (l.find? (fun e => decide (e.id = effectId))).map f := by
  induction l with
  | nil => rfl
  | cons e rest ih =>
    by_cases h : e.id = effectId
    · rw [updateFirstEffect, if_pos h]
      rw [List.find?_cons_of_pos _ (by simp [hf e, h]),
        List.find?_cons_of_pos _ (by simp [h])]
      rfl
    · rw [updateFirstEffect, if_neg h]
      rw [List.find?_cons_of_neg _ (by simp [h]),
        List.find?_cons_of_neg _ (by simp [h]), ih]

/-- `find?` after updating the first matching parameter: the found
parameter carries the clamped value. -/
theorem find?_updateFirstParam (ps : List EffectParameter) (paramId : String)
    (v : ℚ) :
    (updateFirstParam ps paramId v).find? (fun p => decide (p.id = paramId))
      = (ps.find? (fun p => decide (p.id = paramId))).map
          (fun p => { p with value := clampValue p.min p.max v }) := by
  induction ps with
  | nil => rfl
  | cons p rest ih =>
    by_cases h : p.id = paramId
    · rw [updateFirstParam, if_pos h]
      rw [List.find?_cons_of_pos _ (by simp [h]),
        List.find?_cons_of_pos _ (by simp [h])]
      rfl
    · rw [updateFirstParam, if_neg h]
      rw [List.find?_cons_of_neg _ (by simp [h]),
        List.find?_cons_of_neg _ (by simp [h]), ih]

/-- Membership in the bypass set after `Set.add`. -/
theorem mem_setAdd_iff (l : List String) (x y : String) :
    y ∈ setAdd l x ↔ y ∈ l ∨ y = x := by
  rw [setAdd]
  split
  · rename_i hx
    constructor
    · exact Or.inl
    · rintro (h | rfl)
      · exact h
      · exact hx
  · simp [List.mem_append]

/-- Membership in the bypass set after `Set.delete`. -/
theorem mem_setDelete_iff (l : List String) (x y : String) :
    y ∈ setDelete l x ↔ y ∈ l ∧ y ≠ x := by
  simp [setDelete, List.mem_filter]

/-- One `toggleBypass` step on a registered effect: the bypass set flips the
id's membership and the registry is untouched. -/
theorem toggleBypass_step (s : EffectManagerState) (effectId : String) (e : Effect)
    (he : s.effects.find? (fun e2 => decide (e2.id = effectId)) = some e) :
    (toggleBypass s effectId).bypassedEffects =
      (if effectId ∈ s.bypassedEffects then setDelete s.bypassedEffects effectId
       else setAdd s.bypassedEffects effectId) ∧
    (toggleBypass s effectId).effects = s.effects := by
  rw [toggleBypass]
  simp only [he]
  constructor
  · by_cases hmem : effectId ∈ s.bypassedEffects
    · simp [isEffectBypassed, hmem]
    · simp [isEffectBypassed, hmem]
  · trivial

/-- C1 counterexample: the cache key omits the input waveform.  After one
run on `[0.5]` (which caches `[-0.5]`), a second run on the different
same-length input `[0.25]` with identical effect id and parameters scores a
cache HIT: it returns the first run's array `[-0.5]` with zero backend
invocations, although recomputing the stage on `[0.25]` yields `[-0.25]`.
The two calls share one cache entry instead of having distinct ones. -/
theorem cache_ignores_input_cex :
    c1FirstRun.1 = Except.ok [-ratHalf] ∧
    c1FirstRun.2.2 = 1 ∧
    (applyEffects c1SecondState backendNeg [ratQuarter]).1 = Except.ok [-ratHalf] ∧
    (applyEffects c1SecondState backendNeg [ratQuarter]).2.2 = 0 ∧
    (applyEffects c1SecondState backendNeg [ratQuarter]).2.1 = c1SecondState.computeCache ∧
    backendNeg "chaosFold" (effectParamsRecord chaosFoldEffect) [ratQuarter]
      = Except.ok [-ratQuarter] ∧
    ¬ (-ratHalf = -ratQuarter) :=
  ⟨rfl, rfl, rfl, rfl, rfl, rfl, by decide⟩

/-- C1 amended: a stage's result is memoized under the cache key
`(effect id, serialized parameter values)`; a hit additionally requires the
cached result's LENGTH to equal the current input's length, and then
returns the cached array with no recomputation — the input waveform's
content never enters the key, so same-length inputs share one entry. -/
theorem cache_hit_returns_cached (s : EffectManagerState) (backend : Backend)
    (wf : List ℚ) (e : Effect) (c : CacheEntry)
    (heff : s.effects = [e])
    (hbyp : e.id ∉ s.bypassedEffects)
    (hget : mapGet s.computeCache (getCacheKey e.id (effectParamsRecord e)) = some c)
    (hpar : jsonStringifyParams c.params = jsonStringifyParams (effectParamsRecord e))
    (hlen : c.result.length = wf.length)
    (hne : wf ≠ []) :
    applyEffects s backend wf = (Except.ok c.result, s.computeCache, 0) := by
  have hhit : cacheHit c (effectParamsRecord e) wf = true := by
    rw [cacheHit, hpar, hlen]
    simp
  rcases wf with _ | ⟨a, t⟩
  · exact absurd rfl hne
  · rw [applyEffects, if_neg (by simp), heff]
    simp [applyEffectsAux, hget, hhit, hbyp]

/-- Witness for the amended C1: the second C1 run is exactly such a hit. -/
theorem cache_hit_returns_cached_witness :
    c1SecondState.effects = [chaosFoldEffect] ∧
    "chaosFold" ∉ c1SecondState.bypassedEffects ∧
    mapGet c1SecondState.computeCache
      (getCacheKey "chaosFold" (effectParamsRecord chaosFoldEffect)) = some c1Entry ∧
    jsonStringifyParams c1Entry.params
      = jsonStringifyParams (effectParamsRecord chaosFoldEffect) ∧
    c1Entry.result.length = [ratQuarter].length ∧
    applyEffects c1SecondState backendNeg [ratQuarter]
      = (Except.ok c1Entry.result, c1SecondState.computeCache, 0) :=
  ⟨rfl, by simp [c1SecondState, defaultManager], rfl, rfl, rfl,
    cache_hit_returns_cached c1SecondState backendNeg [ratQuarter] chaosFoldEffect
      c1Entry rfl (by simp [c1SecondState, defaultManager]) rfl rfl rfl (by simp)⟩

/-- C2 (failing input): parameter mutations do NOT invalidate the effect's
cache entries.  `clearComputeCache` deletes the map key `"chaosFold"`, but
entries are stored under `"chaosFold:{...params...}"`, so nothing is ever
removed.  After caching a result, writing `mix := 0.5` and then
`mix := 1` (both real mutations of the stored value), the next
`applyEffects` call still retrieves the entry cached before the writes:
zero backend invocations. -/
theorem cache_survives_param_write :
    getParamValue c2AfterWrite1 "chaosFold" "mix" = some ratHalf ∧
    getParamValue c2AfterWrite2 "chaosFold" "mix" = some 1 ∧
    c2AfterWrite1.computeCache = c2AfterFirstRun.computeCache ∧
    c2AfterWrite2.computeCache = c2AfterFirstRun.computeCache ∧
    (applyEffects c2AfterWrite2 backendNeg [1]).2.2 = 0 ∧
    (applyEffects c2AfterWrite2 backendNeg [1]).1 = Except.ok [-1] :=
  ⟨rfl, rfl, rfl, rfl, rfl, rfl⟩

/-- C3 counterexample: in the second `applyEffects` revision a failing
stage does not abort the call.  With the single registered effect enabled
and a backend that always fails, the call swallows the error and returns
the input waveform — processed by none of the enabled stages. -/
theorem stage_error_swallowed_cex :
    isEffectBypassed defaultManager "chaosFold" = false ∧
    backendFail "chaosFold" (effectParamsRecord chaosFoldEffect) [1]
      = Except.error "stage failed" ∧
    applyEffectsV2 defaultManager backendFail [1] = ([1], [], 1) :=
  ⟨rfl, rfl, rfl⟩

/-- C3 amended: in the first `applyEffects` revision a failing enabled
stage aborts the whole call with that stage's error; in the second revision
the error is caught and the stage skipped, so data not processed by the
failing stage is returned. -/
theorem stage_error_abort_vs_continue (s : EffectManagerState) (backend : Backend)
    (wf : List ℚ) (e : Effect) (msg : String)
    (heff : s.effects = [e])
    (hbyp : e.id ∉ s.bypassedEffects)
    (hget : mapGet s.computeCache (getCacheKey e.id (effectParamsRecord e)) = none)
    (hne : wf ≠ [])
    (hb : backend e.id (effectParamsRecord e) wf = Except.error msg) :
    (applyEffects s backend wf).1 = Except.error msg ∧
    applyEffectsV2 s backend wf = (wf, s.computeCache, 1) := by
  constructor
  · rcases wf with _ | ⟨a, t⟩
    · exact absurd rfl hne
    · rw [applyEffects, if_neg (by simp), heff]
      simp only [applyEffectsAux, hget, hb]
      rw [if_neg hbyp]
  · rw [applyEffectsV2, heff]
    simp only [applyEffectsV2Aux, hb]
    rw [if_neg hbyp]

/-- Witness for the amended C3 at the default manager with a failing
backend on input `[1]`. -/
theorem stage_error_abort_vs_continue_witness :
    defaultManager.effects = [chaosFoldEffect] ∧
    "chaosFold" ∉ defaultManager.bypassedEffects ∧
    mapGet defaultManager.computeCache
      (getCacheKey "chaosFold" (effectParamsRecord chaosFoldEffect)) = none ∧
    backendFail "chaosFold" (effectParamsRecord chaosFoldEffect) [1]
      = Except.error "stage failed" ∧
    ((applyEffects defaultManager backendFail [1]).1 = Except.error "stage failed" ∧
      applyEffectsV2 defaultManager backendFail [1]
        = ([1], defaultManager.computeCache, 1)) :=
  ⟨rfl, by simp [defaultManager], rfl, rfl,
    stage_error_abort_vs_continue defaultManager backendFail [1] chaosFoldEffect
      "stage failed" rfl (by simp [defaultManager]) rfl (by simp) rfl⟩

/-- C8: `updateEffectParameter` stores `max(min, min(max, v))` (that is,
`clampValue`), which lies within `[min, max]` whenever the registered range
is nonempty. -/
theorem param_write_clamped (s : EffectManagerState) (effectId paramId : String)
    (v pmin pmax : ℚ)
    (hrange : getParamRange s effectId paramId = some (pmin, pmax))
    (hmm : pmin ≤ pmax) :
    getParamValue (updateEffectParameter s effectId paramId v) effectId paramId
      = some (clampValue pmin pmax v) ∧
    pmin ≤ clampValue pmin pmax v ∧ clampValue pmin pmax v ≤ pmax := by
  refine ⟨?_, le_max_left _ _, max_le hmm (min_le_left _ _)⟩
  rcases he : s.effects.find? (fun e => decide (e.id = effectId)) with _ | e
  · rw [getParamRange, he] at hrange
    simp at hrange
  · rcases hp : e.parameters.find? (fun p => decide (p.id = paramId)) with _ | p
    · rw [getParamRange, he] at hrange
      simp [hp] at hrange
    · have hminmax : p.min = pmin ∧ p.max = pmax := by
        rw [getParamRange, he] at hrange
        simpa [hp] using hrange
      simp only [updateEffectParameter, he, hp, getParamValue]
      rw [find?_updateFirstEffect s.effects effectId
        (fun e2 => { e2 with parameters := updateFirstParam e2.parameters paramId v })
        (fun _ => rfl), he]
      simp [find?_updateFirstParam, hp, hminmax.1, hminmax.2]

/-- Witness for C8: writing `mix := 5` on the default manager stores the
clamped value `1`. -/
theorem param_write_clamped_witness :
    getParamRange defaultManager "chaosFold" "mix" = some (0, 1) ∧
    (0 : ℚ) ≤ 1 ∧
    (getParamValue (updateEffectParameter defaultManager "chaosFold" "mix" 5)
        "chaosFold" "mix" = some (clampValue 0 1 5) ∧
      (0 : ℚ) ≤ clampValue 0 1 5 ∧ clampValue 0 1 5 ≤ 1) :=
  ⟨rfl, by norm_num,
    param_write_clamped defaultManager "chaosFold" "mix" 5 0 1 rfl (by norm_num)⟩

/-- C9 counterexample: `applyChaosFolder` does not clamp the parameter
values it supplies to the fold.  A sigma of `30` (outside the documented
`[0,20]`) passes the NaN check and is forwarded unchanged. -/
theorem chaos_params_unclamped_cex :
    buildChaosFoldParams (JSNum.num 30) (JSNum.num 28) (JSNum.num ratHalf)
        (JSNum.num ratHundredth)
      = Except.ok (30, 28, ratHalf, ratHundredth) ∧
    getParamRange defaultManager "chaosFold" "sigma" = some (0, 20) ∧
    ¬ ((30 : ℚ) ≤ 20) :=
  ⟨rfl, rfl, by norm_num⟩

/-- C9 amended: the registered `chaosFold` parameter ranges are exactly the
documented ones (sigma `[0,20]`, rho `[0,50]`, beta `[0,2]`, timeStep
`[0.001,0.1]`, mix/foldSymmetry/complexity/lfoAmount `[0,1]`), and writes
through `updateEffectParameter` are clamped to them; but the parameter
values `applyChaosFolder` supplies to a fold are only NaN-checked, never
clamped. -/
theorem chaos_params_ranges (sigma rho beta dt : ℚ) :
    registeredRanges defaultManager "chaosFold" =
      [("beta", 0, 2), ("timeStep", ratThousandth, ratTenth), ("mix", 0, 1),
        ("sigma", 0, 20), ("rho", 0, 50), ("foldSymmetry", 0, 1),
        ("complexity", 0, 1), ("lfoAmount", 0, 1)] ∧
    ratThousandth = 1/1000 ∧ ratTenth = 1/10 ∧
    buildChaosFoldParams (JSNum.num sigma) (JSNum.num rho) (JSNum.num beta)
        (JSNum.num dt)
      = Except.ok (sigma, rho, beta, dt) :=
  ⟨rfl, ratThousandth_eq, ratTenth_eq, rfl⟩

/-- C10: for a registered effect id, both `toggleBypass` revisions flip the
value reported by `isEffectBypassed` for that id, leave every other id's
bypass state unchanged, and toggling twice restores the original state. -/
theorem toggleBypass_involutive (s : EffectManagerState) (effectId : String)
    (hreg : (s.effects.find? (fun e => decide (e.id = effectId))).isSome = true) :
    (isEffectBypassed (toggleBypass s effectId) effectId
        = !(isEffectBypassed s effectId) ∧
      (∀ other, other ≠ effectId →
        isEffectBypassed (toggleBypass s effectId) other
          = isEffectBypassed s other) ∧
      isEffectBypassed (toggleBypass (toggleBypass s effectId) effectId) effectId
        = isEffectBypassed s effectId) ∧
    (isEffectBypassed (toggleBypassV2 s effectId) effectId
        = !(isEffectBypassed s effectId) ∧
      (∀ other, other ≠ effectId →
        isEffectBypassed (toggleBypassV2 s effectId) other
          = isEffectBypassed s other) ∧
      isEffectBypassed (toggleBypassV2 (toggleBypassV2 s effectId) effectId) effectId
        = isEffectBypassed s effectId) := by
  obtain ⟨e, he⟩ := Option.isSome_iff_exists.mp hreg
  obtain ⟨ht1b, ht1e⟩ := toggleBypass_step s effectId e he
  obtain ⟨ht2b, _⟩ := toggleBypass_step (toggleBypass s effectId) effectId e
    (by rw [ht1e]; exact he)
  have hv1b : (toggleBypassV2 s effectId).bypassedEffects =
      if effectId ∈ s.bypassedEffects then setDelete s.bypassedEffects effectId
      else setAdd s.bypassedEffects effectId := rfl
  have hv2b : (toggleBypassV2 (toggleBypassV2 s effectId) effectId).bypassedEffects =
      if effectId ∈ (toggleBypassV2 s effectId).bypassedEffects then
        setDelete (toggleBypassV2 s effectId).bypassedEffects effectId
      else setAdd (toggleBypassV2 s effectId).bypassedEffects effectId := rfl
  by_cases hmem : effectId ∈ s.bypassedEffects
  · refine ⟨⟨?_, ?_, ?_⟩, ?_, ?_, ?_⟩
    · simp [isEffectBypassed, ht1b, hmem, mem_setDelete_iff]
    · intro other ho
      simp [isEffectBypassed, ht1b, hmem, mem_setDelete_iff, ho]
    · simp [isEffectBypassed, ht2b, ht1b, hmem, mem_setDelete_iff, mem_setAdd_iff]
    · simp [isEffectBypassed, hv1b, hmem, mem_setDelete_iff]
    · intro other ho
      simp [isEffectBypassed, hv1b, hmem, mem_setDelete_iff, ho]
    · simp [isEffectBypassed, hv2b, hv1b, hmem, mem_setDelete_iff, mem_setAdd_iff]
  · refine ⟨⟨?_, ?_, ?_⟩, ?_, ?_, ?_⟩
    · simp [isEffectBypassed, ht1b, hmem, mem_setAdd_iff]
    · intro other ho
      simp [isEffectBypassed, ht1b, hmem, mem_setAdd_iff, ho]
    · simp [isEffectBypassed, ht2b, ht1b, hmem, mem_setDelete_iff, mem_setAdd_iff]
    · simp [isEffectBypassed, hv1b, hmem, mem_setAdd_iff]
    · intro other ho
      simp [isEffectBypassed, hv1b, hmem, mem_setAdd_iff, ho]
    · simp [isEffectBypassed, hv2b, hv1b, hmem, mem_setDelete_iff, mem_setAdd_iff]

/-- Witness for C10 at the default manager and the registered id
`chaosFold`. -/
theorem toggleBypass_involutive_witness :
    (defaultManager.effects.find? (fun e => decide (e.id = "chaosFold"))).isSome = true ∧
    ((isEffectBypassed (toggleBypass defaultManager "chaosFold") "chaosFold"
        = !(isEffectBypassed defaultManager "chaosFold") ∧
      (∀ other, other ≠ "chaosFold" →
        isEffectBypassed (toggleBypass defaultManager "chaosFold") other
          = isEffectBypassed defaultManager other) ∧
      isEffectBypassed
          (toggleBypass (toggleBypass defaultManager "chaosFold") "chaosFold") "chaosFold"
        = isEffectBypassed defaultManager "chaosFold") ∧
    (isEffectBypassed (toggleBypassV2 defaultManager "chaosFold") "chaosFold"
        = !(isEffectBypassed defaultManager "chaosFold") ∧
      (∀ other, other ≠ "chaosFold" →
        isEffectBypassed (toggleBypassV2 defaultManager "chaosFold") other
          = isEffectBypassed defaultManager other) ∧
      isEffectBypassed
          (toggleBypassV2 (toggleBypassV2 defaultManager "chaosFold") "chaosFold") "chaosFold"
        = isEffectBypassed defaultManager "chaosFold")) :=
  ⟨rfl, toggleBypass_involutive defaultManager "chaosFold" rfl⟩

end WavetableSite
